import Mathlib

/-!
Verification of the entitlement-ledger logic of src/app.py ("Career Catalyst").

We shallowly embed the ledger functions of src/app.py:
  reset_usage                      (app.py lines 219-227)
  update_tier_by_checkout_session  (app.py lines 233-267)
  store_user_in_db                 (app.py lines 432-441)
  get_user_data                    (app.py lines 446-454)
  record_module_run                (app.py lines 456-461)
  can_run_module                   (app.py lines 463-482)
  get_left_runs                    (app.py lines 484-495)
  update_tier_after_payment        (app.py lines 497-505)

Modelling conventions:
* Timestamps (`datetime`) are integers (e.g. seconds); `datetime.now()` becomes
  an explicit `now : Int` argument.  `timedelta(days=180)` becomes the constant
  `SIX_MONTHS` in the same units.
* A Firebase user record is the structure `UserRecord`; its `usage` child is a
  Python dict, modelled as an insertion-ordered association list
  `List (String × Nat)` with dict-style lookup (`usageGet`, default 0 as in
  `usage.get(module_name, 0)`) and dict-style single-key update (`usageSet`,
  as in `user_ref.update({module_name: new_usage})`).
* The Firebase `users` tree is the insertion-ordered association list
  `Users := List (String × UserRecord)`; Python dict iteration
  (`for uid, user in users.items()`) is list traversal.
* `get_user_data()` returns `ref.get() or {}`: the missing-record case is the
  `none` of an `Option UserRecord` argument, and each field read applies the
  same default the Python `dict.get` call applies.
* Stateful functions return their new state explicitly: `can_run_module`
  returns the gate decision together with the (possibly rewritten) stored
  record, `record_module_run` and `update_tier_after_payment` return the new
  record, and `update_tier_by_checkout_session` returns its
  `(success, plan, email)` triple together with the new `users` tree.
  Each Firebase `update(...)` call in the source is a single write and is
  modelled as a single record/tree transformation.
* The Stripe checkout session retrieved in `update_tier_by_checkout_session`
  is the structure `CheckoutSession` holding the three fields the code reads
  (`payment_status`, `metadata["purchase_plan"]`, `customer_email`); the
  `except` branch for a failed provider lookup (network error) is external
  I/O failure and outside the embedding.
-/

/-- Subscription child of a user record: `{"package": ..., "expiry": ...}`.
`expiry = none` models the JSON `null` stored for accounts without expiry. -/
structure Subscription where
  package : String
  expiry : Option Int
  deriving DecidableEq, Repr

/-- One Firebase user record as written by `store_user_in_db` (app.py 432-441):
`{"email": ..., "created_at": ..., "usage": ..., "subscription": ...}`. -/
structure UserRecord where
  email : String
  created_at : Int
  usage : List (String × Nat)
  subscription : Subscription
  deriving DecidableEq, Repr

/-- The Firebase `users` tree: uid ↦ record, insertion ordered. -/
def Users := List (String × UserRecord)

/-- Python `usage.get(module_name, 0)` on the usage dict (also
`user_ref.child(module_name).get() or 0` in `record_module_run`). -/
def usageGet (usage : List (String × Nat)) (m : String) : Nat :=
  match usage.find? (fun p => p.fst == m) with
  | some p => p.snd
  | none => 0

/-- Python `user_ref.update({module_name: new_usage})`: overwrite the key if
present (keeping dict insertion order), otherwise append it. -/
def usageSet : List (String × Nat) → String → Nat → List (String × Nat)
  | [], m, v => [(m, v)]
  | (k, w) :: rest, m, v =>
    if k == m then (m, v) :: rest else (k, w) :: usageSet rest m v

/-- `reset_usage()` (app.py 219-227): all six module counters set to zero. -/
def reset_usage : List (String × Nat) :=
  [("Module 1", 0), ("Module 2", 0), ("Module 3", 0),
   ("Module 4", 0), ("Module 5", 0), ("Module 6", 0)]

/-- `SIX_MONTHS = timedelta(days=180)` (app.py 232), in seconds. -/
def SIX_MONTHS : Int := 180 * 86400

/-- The record `store_user_in_db` creates at sign-up (app.py 432-441):
free package, null expiry, all six counters zero. -/
def store_user_in_db (email : String) (now : Int) : UserRecord :=
  { email := email
    created_at := now
    usage := reset_usage
    subscription := { package := "free", expiry := none } }

/-- `record_module_run(module_name)` (app.py 456-461): read the counter with
default 0 (`.get() or 0`), add one, write back only that key of `usage`. -/
def record_module_run (r : UserRecord) (module_name : String) : UserRecord :=
  let current_usage := usageGet r.usage module_name
  let new_usage := current_usage + 1
  { r with usage := usageSet r.usage module_name new_usage }

/-- The package `can_run_module` evaluates its decision table on after the
lazy-expiry normalization (app.py 466-473): if a non-null expiry has passed
(`datetime.now() > expiry_date`) the package is `"free"`, otherwise it is the
stored package. -/
def effectivePackage (r : UserRecord) (now : Int) : String :=
  match r.subscription.expiry with
  | some e => if now > e then "free" else r.subscription.package
  | none => r.subscription.package

/-- The decision table at the end of `can_run_module` (app.py 476-482):
free allows while `current_runs < 5`, pro while `current_runs < 100`,
ultimate always; any other package string falls through to `False`. -/
def tier_decision (package : String) (current_runs : Nat) : Bool :=
  if package == "free" then decide (current_runs < 5)
  else if package == "pro" then decide (current_runs < 100)
  else if package == "ultimate" then true
  else false

/-- `can_run_module(module_name)` (app.py 463-482).  `user_data` is the result
of `get_user_data()`: `none` models the `{}` returned when no record exists,
and each field read applies the source's `dict.get` default
(`subscription` defaults to `{"package": "free", "expiry": None}`, `usage`
defaults to `{}`).  When the stored expiry is non-null and has passed, the
record's `subscription` child is rewritten to `{"package": "free",
"expiry": None}` (a write that touches nothing else) and the local package
becomes `"free"`; the decision table then runs on the (unchanged) usage dict.
Returns the decision together with the stored record after the call. -/
def can_run_module (user_data : Option UserRecord) (now : Int)
    (module_name : String) : Bool × Option UserRecord :=
  let subscription := match user_data with
    | some r => r.subscription
    | none => { package := "free", expiry := none }
  let expired : Bool := match subscription.expiry with
    | some e => now > e
    | none => false
  let package := if expired then "free" else subscription.package
  let store := if expired then
      match user_data with
      | some r => some { r with subscription := { package := "free", expiry := none } }
      | none => none
    else user_data
  let usage := match user_data with
    | some r => r.usage
    | none => []
  let current_runs := usageGet usage module_name
  (tier_decision package current_runs, store)

/-- Return type of `get_left_runs`: an integer count or the string
`"Unlimited"` (app.py 484-495). -/
inductive LeftRuns where
  | count (n : Nat)
  | unlimited
  deriving DecidableEq, Repr

/-- `get_left_runs(module_name)` (app.py 484-495): a pure read of the stored
record; no expiry check and no write.  Defaults as in `can_run_module`. -/
def get_left_runs (user_data : Option UserRecord) (module_name : String) :
    LeftRuns :=
  let package := match user_data with
    | some r => r.subscription.package
    | none => "free"
  let used := usageGet (match user_data with
    | some r => r.usage
    | none => []) module_name
  if package == "free" then .count (max (5 - used) 0)
  else if package == "pro" then .count (max (100 - used) 0)
  else if package == "ultimate" then .unlimited
  else .count 0

/-- `update_tier_after_payment(plan)` (app.py 497-505): one `update` call
replacing the `subscription` child with `{plan, now + SIX_MONTHS}` and the
`usage` child with `reset_usage()`; `email` and `created_at` are not in the
update dict and stay as they are. -/
def update_tier_after_payment (r : UserRecord) (plan : String) (now : Int) :
    UserRecord :=
  let expiry_date := now + SIX_MONTHS
  { r with
    subscription := { package := plan, expiry := some expiry_date }
    usage := reset_usage }

/-- The Stripe checkout session as read by `update_tier_by_checkout_session`
(app.py 239-241): `payment_status`, `metadata.get("purchase_plan", "free")`
(the key may be absent, hence `Option`), and `customer_email`. -/
structure CheckoutSession where
  payment_status : String
  metadata_purchase_plan : Option String
  customer_email : String
  deriving DecidableEq, Repr

/-- The `for uid, user in users.items()` loop of
`update_tier_by_checkout_session` (app.py 251-262): find the first record
whose email matches case-insensitively, apply the upgrade write to it and
stop; report whether a match was found. -/
def reconcile_loop (purchase_plan customer_email : String) (now : Int) :
    List (String × UserRecord) → Bool × List (String × UserRecord)
  | [] => (false, [])
  | (uid, user) :: rest =>
    if user.email.toLower == customer_email.toLower then
      (true, (uid, update_tier_after_payment user purchase_plan now) :: rest)
    else
      let out := reconcile_loop purchase_plan customer_email now rest
      (out.fst, (uid, user) :: out.snd)

/-- `update_tier_by_checkout_session(session_id)` (app.py 233-267) with the
provider lookup's result passed in as `session`.  If the payment is not
`"paid"`, returns `(False, None, customer_email)` without touching the users
tree; otherwise upgrades the first record matching the payer email
(`(True, plan, email)`) or, when none matches, returns
`(False, None, customer_email)` with the tree unchanged. -/
def update_tier_by_checkout_session (session : CheckoutSession)
    (users : List (String × UserRecord)) (now : Int) :
    (Bool × Option String × Option String) × List (String × UserRecord) :=
  let purchase_plan := session.metadata_purchase_plan.getD "free"
  let customer_email := session.customer_email
  if session.payment_status != "paid" then
    ((false, none, some customer_email), users)
  else
    let out := reconcile_loop purchase_plan customer_email now users
    if out.fst then
      ((true, some purchase_plan, some customer_email), out.snd)
    else
      ((false, none, some customer_email), users)

/-! ### Helper lemmas about the usage dict and the gate -/

theorem usageGet_nil (m : String) : usageGet [] m = 0 := rfl

theorem usageGet_usageSet_self (u : List (String × Nat)) (m : String)
    (v : Nat) : usageGet (usageSet u m v) m = v := by
  induction u with
  | nil => simp [usageSet, usageGet, List.find?]
  | cons p rest ih =>
    obtain ⟨k, w⟩ := p
    by_cases h : k = m
    · simp [usageSet, h, usageGet, List.find?]
    · have hb : (k == m) = false := by simp [h]
      simp only [usageSet, hb, Bool.false_eq_true, if_false]
      simpa [usageGet, List.find?, hb] using ih

theorem usageGet_usageSet_ne (u : List (String × Nat)) (m m2 : String)
    (v : Nat) (h : m2 ≠ m) :
    usageGet (usageSet u m v) m2 = usageGet u m2 := by
  have hb : (m == m2) = false := by
    simp only [beq_eq_false_iff_ne, ne_eq]
    exact fun e => h e.symm
  induction u with
  | nil => simp [usageSet, usageGet, List.find?, hb]
  | cons p rest ih =>
    obtain ⟨k, w⟩ := p
    by_cases hk : k = m
    · subst hk
      simp [usageSet, usageGet, List.find?, hb]
    · have hkb : (k == m) = false := by simp [hk]
      by_cases hk2 : k = m2
      · subst hk2
        simp [usageSet, hkb, usageGet, List.find?]
      · have hk2b : (k == m2) = false := by simp [hk2]
        simp only [usageSet, hkb, Bool.false_eq_true, if_false]
        simpa [usageGet, List.find?, hk2b] using ih

theorem usageGet_find?_none (u : List (String × Nat)) (m : String)
    (h : (u.find? fun p => p.fst == m) = none) : usageGet u m = 0 := by
  simp [usageGet, h]

theorem can_run_module_fst (r : UserRecord) (now : Int) (M : String) :
    (can_run_module (some r) now M).fst =
      tier_decision (effectivePackage r now) (usageGet r.usage M) := by
  unfold can_run_module effectivePackage
  cases he : r.subscription.expiry with
  | none => simp [he]
  | some e =>
    by_cases hlt : now > e
    · simp [he, hlt]
    · simp [he, hlt]

theorem can_run_module_expired (r : UserRecord) (now e : Int) (M : String)
    (he : r.subscription.expiry = some e) (hlt : e < now) :
    can_run_module (some r) now M =
      (tier_decision "free" (usageGet r.usage M),
       some { r with subscription := { package := "free", expiry := none } }) := by
  unfold can_run_module
  have h1 : decide (now > e) = true := decide_eq_true hlt
  simp [he, h1]

theorem tier_decision_free (n : Nat) :
    (tier_decision "free" n = true) ↔ n < 5 := by
  unfold tier_decision
  rw [if_pos (by decide)]
  simp

theorem tier_decision_pro (n : Nat) :
    (tier_decision "pro" n = true) ↔ n < 100 := by
  unfold tier_decision
  rw [if_neg (by decide), if_pos (by decide)]
  simp

theorem tier_decision_ultimate (n : Nat) :
    tier_decision "ultimate" n = true := by
  unfold tier_decision
  rw [if_neg (by decide), if_neg (by decide), if_pos (by decide)]

theorem get_left_runs_some (r : UserRecord) (M : String) :
    get_left_runs (some r) M =
      (if r.subscription.package == "free" then
        .count (max (5 - usageGet r.usage M) 0)
      else if r.subscription.package == "pro" then
        .count (max (100 - usageGet r.usage M) 0)
      else if r.subscription.package == "ultimate" then .unlimited
      else .count 0) := rfl

theorem update_tier_after_payment_email (r : UserRecord) (plan : String)
    (now : Int) : (update_tier_after_payment r plan now).email = r.email := rfl

theorem update_tier_after_payment_idem (r : UserRecord) (plan : String)
    (now : Int) :
    update_tier_after_payment (update_tier_after_payment r plan now) plan now =
      update_tier_after_payment r plan now := rfl

theorem reconcile_loop_idem (plan em : String) (now : Int)
    (l : List (String × UserRecord)) :
    reconcile_loop plan em now (reconcile_loop plan em now l).snd =
      reconcile_loop plan em now l := by
  induction l with
  | nil => rfl
  | cons p rest ih =>
    obtain ⟨uid, u⟩ := p
    cases h : u.email.toLower == em.toLower with
    | true =>
      simp only [reconcile_loop, h, if_true]
      simp only [reconcile_loop, update_tier_after_payment_email, h, if_true,
        update_tier_after_payment_idem]
    | false =>
      simp only [reconcile_loop, h, Bool.false_eq_true, if_false]
      simp only [reconcile_loop, h, Bool.false_eq_true, if_false, ih]

/-! ### Claim theorems -/

/-- C1: for every ledger record, after the lazy-expiry normalization the gate
check `can_run_module` decides exactly per the tier table: with effective
package free it returns true iff `usage[moduleId] < 5`, with pro iff
`usage[moduleId] < 100`, and with ultimate it always returns true regardless
of usage (so in particular free is allowed at usage 4 and denied at 5, pro
allowed at 99 and denied at 100). -/
theorem gate_matches_tier_table (r : UserRecord) (now : Int) (M : String) :
    (effectivePackage r now = "free" →
      ((can_run_module (some r) now M).fst = true ↔ usageGet r.usage M < 5)) ∧
    (effectivePackage r now = "pro" →
      ((can_run_module (some r) now M).fst = true ↔ usageGet r.usage M < 100)) ∧
    (effectivePackage r now = "ultimate" →
      (can_run_module (some r) now M).fst = true) := by
  rw [can_run_module_fst]
  refine ⟨fun h => ?_, fun h => ?_, fun h => ?_⟩ <;> rw [h]
  · exact tier_decision_free _
  · exact tier_decision_pro _
  · exact tier_decision_ultimate _

/-- Witness for C1: a fresh free record (usage 0) at the free tier is allowed. -/
theorem gate_matches_tier_table_witness :
    effectivePackage (store_user_in_db "a@b.c" 0) 0 = "free" ∧
    (can_run_module (some (store_user_in_db "a@b.c" 0)) 0 "Module 1").fst = true :=
  ⟨by decide,
   ((gate_matches_tier_table (store_user_in_db "a@b.c" 0) 0 "Module 1").1
     (by decide)).mpr (by decide)⟩

/-- C2 fails as stated: an expired pro record keeps its usage counters, so its
gate decision can differ from a newly created free record's.  Here a pro
record with `usage["Module 1"] = 5` and expiry 100 evaluated at time 101 is
denied, while a fresh free record (as created by `store_user_in_db`) is
allowed. -/
theorem lazy_expiry_not_fresh_free :
    (can_run_module
      (some { email := "a@b.c", created_at := 0,
              usage := [("Module 1", 5)],
              subscription := { package := "pro", expiry := some 100 } })
      101 "Module 1").fst = false ∧
    (can_run_module (some (store_user_in_db "a@b.c" 0)) 101 "Module 1").fst
      = true := by
  constructor <;> rfl

/-- C2 amended: for a record whose non-null expiry is strictly earlier than
the current time, the gate decision equals the decision for the already
downgraded record — package free, expiry null, with the SAME usage counters
(not a fresh record with zeroed usage) — and as a side effect the stored
record is rewritten to exactly that downgraded record. -/
theorem lazy_expiry_behaves_as_downgraded (r : UserRecord) (now e : Int)
    (M : String) (he : r.subscription.expiry = some e) (hlt : e < now) :
    (can_run_module (some r) now M).fst =
      (can_run_module
        (some { r with subscription := { package := "free", expiry := none } })
        now M).fst ∧
    (can_run_module (some r) now M).snd =
      some { r with subscription := { package := "free", expiry := none } } := by
  have hexp := can_run_module_expired r now e M he hlt
  constructor
  · rw [hexp, can_run_module_fst]
    rfl
  · rw [hexp]

/-- Witness for C2 amended: a pro record with one run used, expired at 100,
evaluated at 101. -/
theorem lazy_expiry_behaves_as_downgraded_witness :
    (can_run_module
      (some { email := "a@b.c", created_at := 0, usage := [("Module 1", 1)],
              subscription := { package := "pro", expiry := some 100 } })
      101 "Module 1").fst =
      (can_run_module
        (some { email := "a@b.c", created_at := 0, usage := [("Module 1", 1)],
                subscription := { package := "free", expiry := none } })
        101 "Module 1").fst ∧
    (can_run_module
      (some { email := "a@b.c", created_at := 0, usage := [("Module 1", 1)],
              subscription := { package := "pro", expiry := some 100 } })
      101 "Module 1").snd =
      some { email := "a@b.c", created_at := 0, usage := [("Module 1", 1)],
             subscription := { package := "free", expiry := none } } :=
  lazy_expiry_behaves_as_downgraded
    { email := "a@b.c", created_at := 0, usage := [("Module 1", 1)],
      subscription := { package := "pro", expiry := some 100 } }
    101 100 "Module 1" rfl (by decide)

/-- C3 fails as stated: with no ledger record (`get_user_data()` returns `{}`,
modelled `none`), the gate does not fail with NotFound — it returns the
allow decision computed from the defaults (free package, usage 0). -/
theorem missing_record_returns_decision :
    can_run_module none 0 "Module 1" = (true, none) := rfl

/-- C3 amended: for a userId with no ledger record, `get_user_data` yields the
empty dict and `can_run_module` evaluates the free-tier table at usage 0,
returning `true` (an allow decision) with no write, for every module and
time. -/
theorem missing_record_defaults_to_free (now : Int) (M : String) :
    can_run_module none now M = (true, none) := rfl

/-- C4: `update_tier_after_payment` at time `now` with package `plan` leaves
the record with `subscription.package = plan`,
`subscription.expiry = now + SIX_MONTHS` (180 days), and all six module
counters zero, regardless of the prior usage and subscription; `email` and
`created_at` are untouched.  The whole change is one record transformation
(one Firebase `update` call in the source), so no intermediate state with a
new package and stale usage (or vice versa) exists. -/
theorem upgrade_sets_absolute_state (r : UserRecord) (plan : String)
    (now : Int) :
    (update_tier_after_payment r plan now).subscription.package = plan ∧
    (update_tier_after_payment r plan now).subscription.expiry
      = some (now + SIX_MONTHS) ∧
    (update_tier_after_payment r plan now).usage = reset_usage ∧
    usageGet (update_tier_after_payment r plan now).usage "Module 1" = 0 ∧
    usageGet (update_tier_after_payment r plan now).usage "Module 2" = 0 ∧
    usageGet (update_tier_after_payment r plan now).usage "Module 3" = 0 ∧
    usageGet (update_tier_after_payment r plan now).usage "Module 4" = 0 ∧
    usageGet (update_tier_after_payment r plan now).usage "Module 5" = 0 ∧
    usageGet (update_tier_after_payment r plan now).usage "Module 6" = 0 ∧
    (update_tier_after_payment r plan now).email = r.email ∧
    (update_tier_after_payment r plan now).created_at = r.created_at :=
  ⟨rfl, rfl, rfl, rfl, rfl, rfl, rfl, rfl, rfl, rfl, rfl⟩

/-- C5: reconciling the same checkout session twice with the same injected
current time produces exactly the same result and final users tree as
reconciling it once — the upgrade is an absolute set, so a replay does not
extend the expiry. -/
theorem reconcile_replay_idempotent (session : CheckoutSession)
    (users : List (String × UserRecord)) (now : Int) :
    update_tier_by_checkout_session session
        (update_tier_by_checkout_session session users now).snd now =
      update_tier_by_checkout_session session users now := by
  unfold update_tier_by_checkout_session
  cases hp : session.payment_status != "paid" with
  | true => simp [hp]
  | false =>
    simp only [hp, Bool.false_eq_true, if_false]
    cases hf : (reconcile_loop (session.metadata_purchase_plan.getD "free")
        session.customer_email now users).fst with
    | true =>
      simp [hf, reconcile_loop_idem]
    | false =>
      simp [hf]

/-- C6: when the provider reports the payment as not completed,
`update_tier_by_checkout_session` returns failure with no package but with
the payer email, and leaves the users tree exactly as it was (no ledger
record is written). -/
theorem reconcile_unpaid_no_write (session : CheckoutSession)
    (users : List (String × UserRecord)) (now : Int)
    (h : session.payment_status ≠ "paid") :
    update_tier_by_checkout_session session users now =
      ((false, none, some session.customer_email), users) := by
  unfold update_tier_by_checkout_session
  rw [if_pos (by simp [h])]

/-- Witness for C6: an unpaid session against a one-record tree. -/
theorem reconcile_unpaid_no_write_witness :
    update_tier_by_checkout_session
      { payment_status := "unpaid", metadata_purchase_plan := some "pro",
        customer_email := "a@b.c" }
      [("uid1", store_user_in_db "a@b.c" 0)] 50 =
      ((false, none, some "a@b.c"), [("uid1", store_user_in_db "a@b.c" 0)]) :=
  reconcile_unpaid_no_write
    { payment_status := "unpaid", metadata_purchase_plan := some "pro",
      customer_email := "a@b.c" }
    [("uid1", store_user_in_db "a@b.c" 0)] 50 (by decide)

/-- C7: `record_module_run` for module `M` on a record with `usage[M] = n`
leaves `usage[M] = n + 1` and everything else unchanged: email, created_at,
the whole subscription object, and every other module's counter. -/
theorem record_run_increments_only_target (r : UserRecord) (M : String) :
    usageGet (record_module_run r M).usage M = usageGet r.usage M + 1 ∧
    (record_module_run r M).email = r.email ∧
    (record_module_run r M).created_at = r.created_at ∧
    (record_module_run r M).subscription = r.subscription ∧
    ∀ M2, M2 ≠ M →
      usageGet (record_module_run r M).usage M2 = usageGet r.usage M2 :=
  ⟨usageGet_usageSet_self r.usage M _, rfl, rfl, rfl,
   fun M2 h => usageGet_usageSet_ne r.usage M M2 _ h⟩

/-- Witness for C7: recording a run of Module 1 on a fresh record bumps its
counter and leaves Module 2's counter alone. -/
theorem record_run_increments_only_target_witness :
    usageGet (record_module_run (store_user_in_db "a@b.c" 0) "Module 1").usage
        "Module 1" =
      usageGet (store_user_in_db "a@b.c" 0).usage "Module 1" + 1 ∧
    usageGet (record_module_run (store_user_in_db "a@b.c" 0) "Module 1").usage
        "Module 2" =
      usageGet (store_user_in_db "a@b.c" 0).usage "Module 2" :=
  ⟨(record_run_increments_only_target (store_user_in_db "a@b.c" 0)
      "Module 1").1,
   (record_run_increments_only_target (store_user_in_db "a@b.c" 0)
      "Module 1").2.2.2.2 "Module 2" (by decide)⟩

/-- C8 fails as stated: `get_left_runs` never looks at the expiry, so for an
expired (not yet rewritten) pro record it uses the stale pro limit, not the
effective package of the gate.  Here the gate's effective package at time 101
is free and the gate denies, yet `get_left_runs` reports 50 runs left
(pro limit 100 minus 50 used) instead of the free-limit remainder 0. -/
theorem left_runs_ignores_expiry :
    effectivePackage
        { email := "a@b.c", created_at := 0, usage := [("Module 1", 50)],
          subscription := { package := "pro", expiry := some 100 } } 101
      = "free" ∧
    (can_run_module
      (some { email := "a@b.c", created_at := 0, usage := [("Module 1", 50)],
              subscription := { package := "pro", expiry := some 100 } })
      101 "Module 1").fst = false ∧
    get_left_runs
      (some { email := "a@b.c", created_at := 0, usage := [("Module 1", 50)],
              subscription := { package := "pro", expiry := some 100 } })
      "Module 1" = LeftRuns.count 50 := by
  refine ⟨rfl, rfl, rfl⟩

/-- C8 amended: `get_left_runs` is a pure read returning
`max(limit − usage[M], 0)` (5 for free, 100 for pro) or the unlimited
sentinel, with the limit taken from the STORED package; whenever the lazy
expiry rewrite is a no-op (the stored package already is the effective one —
expiry null or not yet passed, or the record already downgraded), this agrees
with the gate: the tier-table limits match and the gate allows exactly when
the remainder is nonzero or unlimited.  (For an expired, not-yet-rewritten
record the stored limit is stale, per the counterexample.) -/
theorem left_runs_stored_package_table (r : UserRecord) (M : String)
    (now : Int) (h : effectivePackage r now = r.subscription.package) :
    (effectivePackage r now = "free" →
      get_left_runs (some r) M = .count (max (5 - usageGet r.usage M) 0)) ∧
    (effectivePackage r now = "pro" →
      get_left_runs (some r) M = .count (max (100 - usageGet r.usage M) 0)) ∧
    (effectivePackage r now = "ultimate" →
      get_left_runs (some r) M = .unlimited) ∧
    ((can_run_module (some r) now M).fst = true ↔
      get_left_runs (some r) M ≠ .count 0) := by
  rw [can_run_module_fst, h]
  refine ⟨fun hp => ?_, fun hp => ?_, fun hp => ?_, ?_⟩
  · rw [get_left_runs_some, hp, if_pos (by decide)]
  · rw [get_left_runs_some, hp, if_neg (by decide), if_pos (by decide)]
  · rw [get_left_runs_some, hp, if_neg (by decide), if_neg (by decide),
      if_pos (by decide)]
  · rw [get_left_runs_some]
    by_cases h1 : r.subscription.package = "free"
    · rw [h1, tier_decision_free, if_pos (by decide)]
      simp only [ne_eq, LeftRuns.count.injEq]
      omega
    · by_cases h2 : r.subscription.package = "pro"
      · rw [h2, tier_decision_pro, if_neg (by decide), if_pos (by decide)]
        simp only [ne_eq, LeftRuns.count.injEq]
        omega
      · by_cases h3 : r.subscription.package = "ultimate"
        · rw [h3, if_neg (by decide), if_neg (by decide), if_pos (by decide)]
          simp [tier_decision_ultimate]
        · have hb1 : (r.subscription.package == "free") = false := by simp [h1]
          have hb2 : (r.subscription.package == "pro") = false := by simp [h2]
          have hb3 : (r.subscription.package == "ultimate") = false := by
            simp [h3]
          unfold tier_decision
          simp [hb1, hb2, hb3]

/-- Witness for C8 amended: a fresh free record has 5 runs left. -/
theorem left_runs_stored_package_table_witness :
    get_left_runs (some (store_user_in_db "a@b.c" 0)) "Module 1" =
      LeftRuns.count
        (max (5 - usageGet (store_user_in_db "a@b.c" 0).usage "Module 1") 0) :=
  (left_runs_stored_package_table (store_user_in_db "a@b.c" 0) "Module 1" 0
    (by decide)).1 (by decide)

/-- C9: the lazy-expiry downgrade inside the gate writes only the subscription
(package to "free", expiry to null); the usage dict — hence all six counters —
and email and created_at keep their pre-downgrade values, so a downgraded
user retains the runs already consumed against the free limit. -/
theorem lazy_downgrade_preserves_usage (r : UserRecord) (now e : Int)
    (M : String) (he : r.subscription.expiry = some e) (hlt : e < now) :
    (can_run_module (some r) now M).snd =
      some { email := r.email, created_at := r.created_at, usage := r.usage,
             subscription := { package := "free", expiry := none } } := by
  rw [can_run_module_expired r now e M he hlt]

/-- Witness for C9: an expired ultimate record with two Module 3 runs keeps
those runs through the downgrade. -/
theorem lazy_downgrade_preserves_usage_witness :
    (can_run_module
      (some { email := "a@b.c", created_at := 0, usage := [("Module 3", 2)],
              subscription := { package := "ultimate", expiry := some 10 } })
      11 "Module 3").snd =
      some { email := "a@b.c", created_at := 0, usage := [("Module 3", 2)],
             subscription := { package := "free", expiry := none } } :=
  lazy_downgrade_preserves_usage
    { email := "a@b.c", created_at := 0, usage := [("Module 3", 2)],
      subscription := { package := "ultimate", expiry := some 10 } }
    11 10 "Module 3" rfl (by decide)

/-- C10: when the usage dict has no entry for the requested module, every
ledger operation treats the missing count as zero rather than failing:
the lookup yields 0, `can_run_module` evaluates the decision table at
usage 0 (of the effective package), `get_left_runs` reports the full limit
(5 free, 100 pro, unlimited for ultimate, 0 otherwise), and
`record_module_run` writes `usage[moduleId] = 1`. -/
theorem missing_usage_counts_as_zero (r : UserRecord) (M : String) (now : Int)
    (h : (r.usage.find? fun p => p.fst == M) = none) :
    usageGet r.usage M = 0 ∧
    (can_run_module (some r) now M).fst =
      tier_decision (effectivePackage r now) 0 ∧
    get_left_runs (some r) M =
      (if r.subscription.package == "free" then LeftRuns.count 5
       else if r.subscription.package == "pro" then LeftRuns.count 100
       else if r.subscription.package == "ultimate" then LeftRuns.unlimited
       else LeftRuns.count 0) ∧
    usageGet (record_module_run r M).usage M = 1 := by
  have h0 : usageGet r.usage M = 0 := usageGet_find?_none r.usage M h
  refine ⟨h0, ?_, ?_, ?_⟩
  · rw [can_run_module_fst, h0]
  · rw [get_left_runs_some, h0]
    norm_num
  · show usageGet (usageSet r.usage M (usageGet r.usage M + 1)) M = 1
    rw [usageGet_usageSet_self, h0]

/-- Witness for C10: a record whose usage dict is empty. -/
theorem missing_usage_counts_as_zero_witness :
    usageGet
      (record_module_run
        { email := "a@b.c", created_at := 0, usage := [],
          subscription := { package := "free", expiry := none } }
        "Module 1").usage "Module 1" = 1 :=
  (missing_usage_counts_as_zero
    { email := "a@b.c", created_at := 0, usage := [],
      subscription := { package := "free", expiry := none } }
    "Module 1" 0 rfl).2.2.2
